import Mathlib

/-!
Shallow embedding of the TerraFix remediation pipeline (Python sources under
`src/terrafix/`) together with proofs about the properties its specification
states.  Machine integers are modelled as `Nat` with explicit reduction
modulo `2^32` where the source relies on 32-bit wraparound; floating-point
token counts are modelled as rationals (all computations at issue are exact
dyadic values); stateful code is modelled by explicit state passing.
-/

namespace TerraFix

/-! ### SHA-256 (the `hashlib.sha256` collaborator used by
`VantaClient.generate_failure_hash`).

The round constants are the fractional parts of the cube roots of the first
64 primes, and the initial hash values the fractional parts of the square
roots of the first 8 primes; both are computed exactly with integer
root extraction. -/

def w32 (n : Nat) : Nat := n % 4294967296

def add32 (a b : Nat) : Nat := (a + b) % 4294967296

def rotr32 (n x : Nat) : Nat := w32 ((x >>> n) ||| (x <<< (32 - n)))

def not32 (x : Nat) : Nat := 4294967295 - x

/-- Integer cube root by bisection: largest `x` with `x^3 ≤ n`, given the
invariant `lo^3 ≤ n < hi^3` and enough fuel. -/
def cbrtAux (n : Nat) : Nat → Nat → Nat → Nat
  | 0, lo, _ => lo
  | fuel + 1, lo, hi =>
    if hi ≤ lo + 1 then lo
    else
      let mid := (lo + hi) / 2
      if mid * mid * mid ≤ n then cbrtAux n fuel mid hi else cbrtAux n fuel lo mid

def cbrt (n : Nat) : Nat := cbrtAux n 200 0 (n + 1)

def sha256Primes : List Nat :=
  [2, 3, 5, 7, 11, 13, 17, 19, 23, 29, 31, 37, 41, 43, 47, 53,
   59, 61, 67, 71, 73, 79, 83, 89, 97, 101, 103, 107, 109, 113, 127, 131,
   137, 139, 149, 151, 157, 163, 167, 173, 179, 181, 191, 193, 197, 199, 211, 223,
   227, 229, 233, 239, 241, 251, 257, 263, 269, 271, 277, 281, 283, 293, 307, 311]

def sha256K : List Nat := sha256Primes.map (fun p => cbrt (p * 2 ^ 96) % 4294967296)

def sha256H0 : List Nat := (sha256Primes.take 8).map (fun p => Nat.sqrt (p * 2 ^ 64) % 4294967296)

/-- Big-endian byte expansion of `n` into `k` bytes. -/
def beBytes : Nat → Nat → List Nat
  | 0, _ => []
  | k + 1, n => beBytes k (n / 256) ++ [n % 256]

def sha256pad (msg : List Nat) : List Nat :=
  let len := msg.length
  let padZeros := (119 - len % 64) % 64
  msg ++ [128] ++ List.replicate padZeros 0 ++ beBytes 8 (len * 8)

def chunk64 : Nat → List Nat → List (List Nat)
  | 0, _ => []
  | _, [] => []
  | fuel + 1, l => l.take 64 :: chunk64 fuel (l.drop 64)

/-- Group a byte list into big-endian 32-bit words. -/
def toWords : List Nat → List Nat
  | b0 :: b1 :: b2 :: b3 :: rest =>
    (b0 * 16777216 + b1 * 65536 + b2 * 256 + b3) :: toWords rest
  | _ => []

def smallSigma0 (x : Nat) : Nat := rotr32 7 x ^^^ rotr32 18 x ^^^ (x >>> 3)

def smallSigma1 (x : Nat) : Nat := rotr32 17 x ^^^ rotr32 19 x ^^^ (x >>> 10)

def bigSigma0 (x : Nat) : Nat := rotr32 2 x ^^^ rotr32 13 x ^^^ rotr32 22 x

def bigSigma1 (x : Nat) : Nat := rotr32 6 x ^^^ rotr32 11 x ^^^ rotr32 25 x

def chFn (x y z : Nat) : Nat := (x &&& y) ^^^ (not32 x &&& z)

def majFn (x y z : Nat) : Nat := (x &&& y) ^^^ (x &&& z) ^^^ (y &&& z)

/-- Extend a 16-word message schedule by `fuel` additional words. -/
def schedule : Nat → List Nat → List Nat
  | 0, w => w
  | fuel + 1, w =>
    let n := w.length
    let wi := add32 (add32 (smallSigma1 (w.getD (n - 2) 0)) (w.getD (n - 7) 0))
      (add32 (smallSigma0 (w.getD (n - 15) 0)) (w.getD (n - 16) 0))
    schedule fuel (w ++ [wi])

def compressRound (st : List Nat) (ki wi : Nat) : List Nat :=
  match st with
  | [a, b, c, d, e, f, g, h] =>
    let t1 := add32 h (add32 (bigSigma1 e) (add32 (chFn e f g) (add32 ki wi)))
    let t2 := add32 (bigSigma0 a) (majFn a b c)
    [add32 t1 t2, a, b, c, add32 d t1, e, f, g]
  | other => other

def compressChunk (h : List Nat) (chunk : List Nat) : List Nat :=
  let w := schedule 48 (toWords chunk)
  let st := (List.zip sha256K w).foldl (fun st kw => compressRound st kw.1 kw.2) h
  List.zipWith add32 h st

def sha256Words (msg : List Nat) : List Nat :=
  (chunk64 (msg.length / 64 + 2) (sha256pad msg)).foldl compressChunk sha256H0

def hexDigit (n : Nat) : Char := if n < 10 then Char.ofNat (48 + n) else Char.ofNat (87 + n)

def toHexDigits : Nat → Nat → List Char
  | 0, _ => []
  | k + 1, n => toHexDigits k (n / 16) ++ [hexDigit (n % 16)]

/-- UTF-8 encoding of a Unicode code point. -/
def utf8Encode (c : Nat) : List Nat :=
  if c < 128 then [c]
  else if c < 2048 then [192 + c / 64, 128 + c % 64]
  else if c < 65536 then [224 + c / 4096, 128 + (c / 64) % 64, 128 + c % 64]
  else [240 + c / 262144, 128 + (c / 4096) % 64, 128 + (c / 64) % 64, 128 + c % 64]

def strBytes (s : String) : List Nat := (s.toList.map (fun c => utf8Encode c.toNat)).flatten

def sha256hex (s : String) : String :=
  String.mk (List.flatten ((sha256Words (strBytes s)).map (toHexDigits 8)))

/-! ### `Failure` (vanta_client.py) and `generate_failure_hash`. -/

/-- `Failure` pydantic model from `vanta_client.py`; the open `dict` fields
`current_state`/`required_state`/`resource_details` are carried as JSON text,
which is all the claims at issue inspect of them. -/
structure Failure where
  test_id : String
  test_name : String
  resource_arn : String
  resource_type : String
  failure_reason : String
  severity : String
  framework : String
  failed_at : String
  current_state : String := "{}"
  required_state : String := "{}"
  resource_id : Option String := none
  resource_details : String := "{}"
  deriving Repr, DecidableEq

/-- `VantaClient.generate_failure_hash`: SHA-256 hex digest of
`"<test_id>-<resource_arn>"`; every other field is excluded. -/
def generate_failure_hash (failure : Failure) : String :=
  sha256hex (failure.test_id ++ "-" ++ failure.resource_arn)

/-! ### Redis-backed deduplication store (`redis_state_store.py`).

The Redis keyspace is modelled as an association list from full
(namespaced) keys to records; `storeSet` shadows by consing and `storeGet`
takes the first match, so the newest write wins, like a key/value store.
Each store method is atomic in Redis, so the concurrency model below
interleaves at method granularity. -/

inductive FailureStatus where
  | pending
  | in_progress
  | completed
  | failed
  deriving Repr, DecidableEq

/-- The JSON record held under a failure key. -/
structure StoreRecord where
  status : FailureStatus
  test_id : Option String := none
  resource_arn : Option String := none
  pr_url : Option String := none
  last_error : Option String := none
  deriving Repr, DecidableEq

def RedisStore := List (String × StoreRecord)
  deriving Repr, DecidableEq

def storeGet (st : RedisStore) (key : String) : Option StoreRecord :=
  (List.find? (fun kv => kv.1 == key) st).map (fun kv => kv.2)

def storeSet (st : RedisStore) (key : String) (r : StoreRecord) : RedisStore :=
  ((key, r) :: st : List (String × StoreRecord))

def key_prefix : String := "terrafix:"

/-- `RedisStateStore._make_key`. -/
def make_key (failure_hash : String) : String :=
  key_prefix ++ "failure:" ++ failure_hash

/-- `RedisStateStore.check_and_claim`: Redis `SET key record NX EX ttl` —
creates an in-progress record only if the key is absent and reports whether
this caller performed the write. -/
def check_and_claim (st : RedisStore) (failure_hash : String) : Bool × RedisStore :=
  let key := make_key failure_hash
  match storeGet st key with
  | some _ => (false, st)
  | none => (true, storeSet st key { status := .in_progress })

/-- `RedisStateStore.is_already_processed`: read-only check; a record counts
as processed when its status is `in_progress` or `completed`. -/
def is_already_processed (st : RedisStore) (failure_hash : String) : Bool :=
  match storeGet st (make_key failure_hash) with
  | none => false
  | some r => r.status == .in_progress || r.status == .completed

/-- `RedisStateStore.mark_in_progress`: unconditional overwrite with a fresh
in-progress record carrying the metadata. -/
def mark_in_progress (st : RedisStore) (failure_hash test_id resource_arn : String) : RedisStore :=
  storeSet st (make_key failure_hash)
    { status := .in_progress, test_id := some test_id, resource_arn := some resource_arn }

/-- `RedisStateStore.mark_processed`: merge onto the existing record,
set status completed, record the PR URL, clear the last error. -/
def mark_processed (st : RedisStore) (failure_hash pr_url : String) : RedisStore :=
  let key := make_key failure_hash
  let ex := storeGet st key
  storeSet st key
    { status := .completed,
      test_id := ex.bind (fun r => r.test_id),
      resource_arn := ex.bind (fun r => r.resource_arn),
      pr_url := some pr_url,
      last_error := none }

/-- `error[:1000] if error else "Unknown error"`. -/
def truncateError (error : String) : String :=
  if error = "" then "Unknown error" else String.mk (error.toList.take 1000)

/-- `RedisStateStore.mark_failed`: merge onto the existing record, set status
failed, store the truncated error. -/
def mark_failed (st : RedisStore) (failure_hash error : String) : RedisStore :=
  let key := make_key failure_hash
  let ex := storeGet st key
  storeSet st key
    { status := .failed,
      test_id := ex.bind (fun r => r.test_id),
      resource_arn := ex.bind (fun r => r.resource_arn),
      pr_url := ex.bind (fun r => r.pr_url),
      last_error := some (truncateError error) }

/-- `RedisStateStore.get_status`. -/
def get_status (st : RedisStore) (failure_hash : String) : Option FailureStatus :=
  (storeGet st (make_key failure_hash)).map (fun r => r.status)

/-! ### Concurrent admission model (orchestrator × dedup store).

`process_failure` (orchestrator.py, lines 142-175) performs, per worker:
first the read-only `is_already_processed` gate, then (if the gate said
"new") the `mark_in_progress` write, then the clone/generate/validate/PR
pipeline stages.  Each store call is atomic; distinct calls of distinct
workers interleave freely.  A worker is a small program counter, and a
schedule is the list of worker indices in the order their next atomic
store operation runs. -/

inductive WorkerPhase where
  | gate
  | mark
  | pipeline
  | skipped
  deriving Repr, DecidableEq

structure RaceState where
  store : RedisStore
  phases : List WorkerPhase
  deriving Repr, DecidableEq

/-- One atomic step of worker `i` running the admission logic exactly as
`process_failure` is written: gate on `is_already_processed`, then
`mark_in_progress`, then enter the pipeline stages. -/
def stepActual (failure_hash test_id resource_arn : String) (s : RaceState) (i : Nat) :
    RaceState :=
  match s.phases.getD i .pipeline with
  | .gate =>
    if is_already_processed s.store failure_hash then
      { s with phases := s.phases.set i .skipped }
    else
      { s with phases := s.phases.set i .mark }
  | .mark =>
    { store := mark_in_progress s.store failure_hash test_id resource_arn,
      phases := s.phases.set i .pipeline }
  | _ => s

/-- One atomic step of worker `i` running the admission logic the spec
mandates: gate on the atomic `check_and_claim`, then `mark_in_progress`,
then enter the pipeline stages. -/
def stepClaim (failure_hash test_id resource_arn : String) (s : RaceState) (i : Nat) :
    RaceState :=
  match s.phases.getD i .pipeline with
  | .gate =>
    let claimed := check_and_claim s.store failure_hash
    if claimed.1 then
      { store := claimed.2, phases := s.phases.set i .mark }
    else
      { store := claimed.2, phases := s.phases.set i .skipped }
  | .mark =>
    { store := mark_in_progress s.store failure_hash test_id resource_arn,
      phases := s.phases.set i .pipeline }
  | _ => s

def runSchedule (step : RaceState → Nat → RaceState) (sched : List Nat) (s : RaceState) :
    RaceState :=
  sched.foldl step s

/-- Initial race state: empty store, every worker at its gate. -/
def initRace (n : Nat) : RaceState :=
  { store := ([] : List (String × StoreRecord)), phases := List.replicate n .gate }

def admittedCount (s : RaceState) : Nat :=
  s.phases.countP (fun p => p == .pipeline)

/-! ### Error taxonomy (`errors.py`) and the retry loop
(`orchestrator._process_failure_with_retry`). -/

/-- Exception classes relevant to the orchestrator's `except` clauses. -/
inductive ErrClass where
  | vantaApi
  | bedrock
  | github
  | terraformParse
  | resourceNotFound
  | stateStore
  | terrafix
  | unknown
  deriving Repr, DecidableEq

/-- A raised `TerraFixError` (or unknown exception): its class, its
`retryable` flag and its message. -/
structure PyError where
  cls : ErrClass
  retryable : Bool
  msg : String
  deriving Repr, DecidableEq

inductive AttemptOutcome where
  | ok (pr_url : String)
  | raised (e : PyError)
  deriving Repr, DecidableEq

def MAX_RETRIES : Nat := 3

def INITIAL_BACKOFF_SECONDS : Nat := 2

def MAX_BACKOFF_SECONDS : Nat := 60

/-- The classes caught by `except (VantaApiError, BedrockError, GitHubError)`. -/
def isRetryCatchClass (c : ErrClass) : Bool :=
  c == .vantaApi || c == .bedrock || c == .github

/-- The `for attempt in range(MAX_RETRIES)` loop, as recursion on the
remaining iterations.  `attempts n` is the outcome of the n-th (0-indexed)
call to `_process_failure_once`; the second component collects the
`time.sleep(backoff)` durations in order.  The fuel-0 case is the
unreachable code after the loop (`raise RuntimeError`). -/
def retryFrom (attempts : Nat → AttemptOutcome) :
    Nat → Nat → Except PyError String × List Nat
  | 0, _ => (Except.error ⟨.unknown, false, "Retry logic failed unexpectedly"⟩, [])
  | fuel + 1, attempt =>
    match attempts attempt with
    | .ok pr_url => (Except.ok pr_url, [])
    | .raised e =>
      if isRetryCatchClass e.cls && e.retryable && decide (attempt < MAX_RETRIES - 1) then
        let backoff := min (INITIAL_BACKOFF_SECONDS * 2 ^ attempt) MAX_BACKOFF_SECONDS
        let rest := retryFrom attempts fuel (attempt + 1)
        (rest.1, backoff :: rest.2)
      else
        (Except.error e, [])

/-- `_process_failure_with_retry`: runs up to `MAX_RETRIES` attempts. -/
def process_failure_with_retry (attempts : Nat → AttemptOutcome) :
    Except PyError String × List Nat :=
  retryFrom attempts MAX_RETRIES 0

/-! ### `process_failure` (orchestrator.py, lines 142-230) as a function of
the behavior of its collaborators.

Each store call either succeeds or raises `StateStoreError`; the pipeline
(`_process_failure_with_retry`) either returns a PR URL or raises.  The
model returns `Except`: `.error` means the exception escapes
`process_failure` itself. -/

structure StoreExn where
  operation : String
  msg : String
  deriving Repr, DecidableEq

structure OrchestratorEnv where
  isProcessedOutcome : Except StoreExn Bool
  markInProgressOutcome : Except StoreExn Unit
  pipelineOutcome : Except PyError String
  markProcessedOutcome : Except StoreExn Unit
  markFailedOutcome : Except StoreExn Unit
  deriving Repr

structure ProcessingResult where
  success : Bool
  failure_hash : String
  pr_url : Option String := none
  error : Option String := none
  skipped : Bool := false
  deriving Repr, DecidableEq

/-- `process_failure`, following the source's try/except structure:
  * the `is_already_processed` gate is NOT wrapped — its exception escapes;
  * `mark_in_progress` is wrapped, its failure is logged and ignored;
  * the pipeline and `mark_processed` sit in one `try` whose
    `except Exception` returns a failure result (after a best-effort
    `mark_failed` whose own failure is swallowed). -/
def process_failure (failure : Failure) (env : OrchestratorEnv) :
    Except StoreExn ProcessingResult :=
  let failure_hash := generate_failure_hash failure
  match env.isProcessedOutcome with
  | .error e => .error e
  | .ok true => .ok { success := true, failure_hash := failure_hash, skipped := true }
  | .ok false =>
    -- mark_in_progress: "Continue anyway - state update failure shouldn't block"
    let _markInProgress := env.markInProgressOutcome
    match env.pipelineOutcome with
    | .ok pr_url =>
      match env.markProcessedOutcome with
      | .ok _ => .ok { success := true, failure_hash := failure_hash, pr_url := some pr_url }
      | .error e =>
        let _markFailed := env.markFailedOutcome
        .ok { success := false, failure_hash := failure_hash, error := some e.msg }
    | .error e =>
      let _markFailed := env.markFailedOutcome
      .ok { success := false, failure_hash := failure_hash, error := some e.msg }

/-! ### `Settings.get_repo_for_resource` (config.py, lines 269-294).

`github_repo_mapping` is a Python dict, modelled as its association list in
insertion order with distinct keys; `dictGet` is dict lookup and plain list
traversal is dict iteration order. -/

def dictGet (m : List (String × String)) (k : String) : Option String :=
  (List.find? (fun kv => kv.1 == k) m).map (fun kv => kv.2)

def startsWithChars : List Char → List Char → Bool
  | [], _ => true
  | _ :: _, [] => false
  | c :: cs, d :: ds => c == d && startsWithChars cs ds

/-- Python `s.startswith(pre)`. -/
def pyStartsWith (s pre : String) : Bool :=
  startsWithChars pre.toList s.toList

/-- `get_repo_for_resource` as written: exact match, then the FIRST
(in dict insertion order) non-default key that is a prefix of the ARN,
then a non-empty `default`. -/
def get_repo_for_resource (mapping : List (String × String)) (resource_arn : String) :
    Option String :=
  match dictGet mapping resource_arn with
  | some repo => some repo
  | none =>
    match List.find? (fun kv => kv.1 != "default" && pyStartsWith resource_arn kv.1) mapping with
    | some kv => some kv.2
    | none =>
      match dictGet mapping "default" with
      | some d => if d = "" then none else some d
      | none => none

/-- Modelled from the spec: lookup by exact match, then LONGEST
(non-default) prefix match, then `default` fallback, else absent. -/
def get_repo_for_resource_spec (mapping : List (String × String)) (resource_arn : String) :
    Option String :=
  match dictGet mapping resource_arn with
  | some repo => some repo
  | none =>
    let best := mapping.foldl
      (fun best kv =>
        if kv.1 != "default" && pyStartsWith resource_arn kv.1 then
          match best with
          | none => some kv
          | some b => if b.1.length < kv.1.length then some kv else some b
        else best)
      (none : Option (String × String))
    match best with
    | some kv => some kv.2
    | none =>
      match dictGet mapping "default" with
      | some d => if d = "" then none else some d
      | none => none

/-- The amended lookup order in recursive form: the first key in insertion
order that is not `"default"` and is a prefix of the ARN. -/
def firstMatchingRepo : List (String × String) → String → Option String
  | [], _ => none
  | kv :: rest, resource_arn =>
    if kv.1 != "default" && pyStartsWith resource_arn kv.1 then some kv.2
    else firstMatchingRepo rest resource_arn

/-! ### `GitHubPRCreator.create_remediation_pr` (github_pr_creator.py).

The external `hashlib.md5` hex digest used for the branch suffix is a
parameter (`md5hex`); the claims at issue do not depend on its value.
The GitHub repository is modelled by the branch names existing at the
`get_branch` pre-check, plus whether another worker creates the branch
between that check and `create_git_ref` (the race window). -/

/-- `test_name.lower().replace(" ", "-").replace("_", "-").replace("/", "-")[:50]`. -/
def slugify (test_name : String) : String :=
  String.mk ((test_name.toLower.toList.map
    (fun c => if c = ' ' || c = '_' || c = '/' then '-' else c)).take 50)

/-- `_generate_branch_name`: `terrafix/<slug>-<md5(test_id)[:8]>`. -/
def generate_branch_name (md5hex : String → String) (failure : Failure) : String :=
  "terrafix/" ++ slugify failure.test_name ++ "-" ++
    String.mk ((md5hex failure.test_id).toList.take 8)

structure GHError where
  msg : String
  status_code : Option Nat
  retryable : Bool
  deriving Repr, DecidableEq

/-- `_handle_github_exception`'s classification:
`retryable = status_code is None or status_code >= 500 or status_code == 429`. -/
def githubRetryable (status_code : Option Nat) : Bool :=
  match status_code with
  | none => true
  | some s => decide (500 ≤ s) || s == 429

structure GitHubRepoState where
  branchesAtCheck : List String
  raceBranchAppears : Bool
  deriving Repr, DecidableEq

structure PRCreationOutcome where
  result : Except GHError String
  branchesCreated : Nat
  prsCreated : Nat
  deriving Repr

/-- `create_remediation_pr`, restricted to the branch-existence behavior the
claim is about (repository lookup, file update and labelling are taken to
succeed): if `get_branch` finds the branch, return the empty-string
sentinel; else if the branch appears in the race window, `create_git_ref`
raises 422 "Reference already exists", converted by
`_handle_github_exception` into a `GitHubError`; else the branch, the
commit and the PR are created and the PR URL returned. -/
def create_remediation_pr (md5hex : String → String) (repoState : GitHubRepoState)
    (failure : Failure) (created_pr_url : String) : PRCreationOutcome :=
  let branch_name := generate_branch_name md5hex failure
  if repoState.branchesAtCheck.contains branch_name then
    { result := Except.ok "", branchesCreated := 0, prsCreated := 0 }
  else if repoState.raceBranchAppears then
    { result := Except.error
        { msg := "GitHub API error during create_pr: Reference already exists",
          status_code := some 422, retryable := githubRetryable (some 422) },
      branchesCreated := 0, prsCreated := 0 }
  else
    { result := Except.ok created_pr_url, branchesCreated := 1, prsCreated := 1 }

/-- The tail of `_process_failure_once` (orchestrator.py, lines 458-472):
a raised `GitHubError` propagates with its own flag; an empty PR URL is
turned into `GitHubError("Failed to create PR (duplicate branch)",
retryable=False)`. -/
def prStepOfOutcome (outcome : PRCreationOutcome) : Except PyError String :=
  match outcome.result with
  | .error e => .error { cls := .github, retryable := e.retryable, msg := e.msg }
  | .ok pr_url =>
    if pr_url = "" then
      .error { cls := .github, retryable := false, msg := "Failed to create PR (duplicate branch)" }
    else
      .ok pr_url

/-! ### Token-bucket rate limiter (`rate_limiter.py`).

Float arithmetic is modelled over `ℚ`; the monotonic clock is explicit:
every call takes the current reading `now`, and inside `acquire` time
advances exactly by the slept durations.  The unbounded `while True` is
given explicit fuel; `acquire(0)` decides in the first iteration. -/

structure LimiterState where
  rate : ℚ
  capacity : ℚ
  tokens : ℚ
  lastUpdate : ℚ
  deriving Repr, DecidableEq

/-- `TokenBucketRateLimiter.__init__` for
`RateLimitConfig(requests_per_minute, burst_size)`. -/
def initLimiter (requests_per_minute burst_size : ℤ) (now : ℚ) : LimiterState :=
  { rate := (requests_per_minute : ℚ) / 60,
    capacity := (burst_size : ℚ),
    tokens := (burst_size : ℚ),
    lastUpdate := now }

/-- `_refill`: lazy refill from elapsed time, clamped to capacity. -/
def refill (s : LimiterState) (now : ℚ) : LimiterState :=
  { s with tokens := min s.capacity (s.tokens + (now - s.lastUpdate) * s.rate),
           lastUpdate := now }

/-- `try_acquire`. -/
def try_acquire (s : LimiterState) (now : ℚ) : Bool × LimiterState :=
  let s' := refill s now
  if 1 ≤ s'.tokens then (true, { s' with tokens := s'.tokens - 1 }) else (false, s')

/-- The body of `acquire`'s `while True` loop.  Returns the result, the
final limiter state, and the list of sleep durations. -/
def acquireLoop (deadline : ℚ) : Nat → LimiterState → ℚ → Bool × LimiterState × List ℚ
  | 0, s, _ => (false, s, [])
  | fuel + 1, s, now =>
    let s' := refill s now
    if 1 ≤ s'.tokens then (true, { s' with tokens := s'.tokens - 1 }, [])
    else
      let wait_time := (1 - s'.tokens) / s'.rate
      if deadline < now + wait_time then (false, s', [])
      else
        let sleep_duration := min wait_time (1 / 10)
        let r := acquireLoop deadline fuel s' (now + sleep_duration)
        (r.1, r.2.1, sleep_duration :: r.2.2)

/-- `acquire(timeout)`: `deadline = time.monotonic() + timeout`, then loop. -/
def acquire (s : LimiterState) (timeout : ℚ) (now : ℚ) (fuel : Nat) :
    Bool × LimiterState × List ℚ :=
  acquireLoop (now + timeout) fuel s now

/-- `get_available_tokens`. -/
def get_available_tokens (s : LimiterState) (now : ℚ) : ℚ × LimiterState :=
  let s' := refill s now
  (s'.tokens, s')

/-- `get_wait_time`. -/
def get_wait_time (s : LimiterState) (now : ℚ) : ℚ × LimiterState :=
  let s' := refill s now
  if 1 ≤ s'.tokens then (0, s') else ((1 - s'.tokens) / s'.rate, s')

/-- The bucket invariant of the claim: the token count stays within
`[0, capacity]`. -/
def limiterInv (s : LimiterState) : Prop :=
  0 ≤ s.tokens ∧ s.tokens ≤ s.capacity

/-! ### Workload profiles (`experiments/profiles.py`). -/

inductive WorkloadProfile where
  | steady_state
  | burst
  | cascade
  deriving Repr, DecidableEq

structure ProfileConfig where
  profile : WorkloadProfile := .steady_state
  duration_seconds : Nat := 300
  failures_per_interval : Int := 5
  interval_seconds : Nat := 10
  burst_multiplier : Int := 10
  burst_duration_seconds : Nat := 30
  cascade_growth_rate : ℚ := 3 / 2
  deriving Repr, DecidableEq

/-- Python `int(q)`: truncation toward zero. -/
def pyInt (q : ℚ) : ℤ :=
  if 0 ≤ q then ⌊q⌋ else ⌈q⌉

/-- `ProfileConfig.get_failures_for_interval`. -/
def get_failures_for_interval (config : ProfileConfig) (elapsed_seconds : Nat) : ℤ :=
  match config.profile with
  | .steady_state => config.failures_per_interval
  | .burst =>
    let cycle_position := elapsed_seconds % (config.burst_duration_seconds * 2)
    if cycle_position < config.burst_duration_seconds then
      config.failures_per_interval * config.burst_multiplier
    else
      config.failures_per_interval
  | .cascade =>
    let intervals_elapsed := elapsed_seconds / config.interval_seconds
    let multiplier := config.cascade_growth_rate ^ intervals_elapsed
    pyInt ((config.failures_per_interval : ℚ) * multiplier)

/-- The cascade configuration of the claim's scenario: growth 1.5, base 2,
interval 10 s, duration 60 s. -/
def cascadeConfig : ProfileConfig :=
  { profile := .cascade, duration_seconds := 60, failures_per_interval := 2,
    interval_seconds := 10, cascade_growth_rate := 3 / 2 }

/-! ### Concrete inputs used by witnesses and counterexamples. -/

/-- The "Happy S3" scenario violation. -/
def demoFailure : Failure :=
  { test_id := "s3-bpa-01", test_name := "S3 Bucket Block Public Access",
    resource_arn := "arn:aws:s3:::demo", resource_type := "AWS::S3::Bucket",
    failure_reason := "Public access not blocked", severity := "high",
    framework := "SOC2", failed_at := "2024-01-01T00:00:00Z" }

/-- The same violation detected again five months later. -/
def demoFailureLater : Failure :=
  { demoFailure with
    failed_at := "2024-06-01T12:00:00Z"
    failure_reason := "Public access still not blocked" }

/-! ### Theorems. -/

/-- C2: if two violations agree on `test_id` and `resource_arn` then
`generate_failure_hash` agrees on them, regardless of every other field
including `failed_at`; and the hash is the SHA-256 hex digest of the string
`"<test_id>-<resource_arn>"`. -/
theorem fingerprint_stability (v1 v2 : Failure)
    (htest : v1.test_id = v2.test_id) (harn : v1.resource_arn = v2.resource_arn) :
    generate_failure_hash v1 = generate_failure_hash v2 ∧
    generate_failure_hash v1 = sha256hex (v1.test_id ++ "-" ++ v1.resource_arn) := by
  unfold generate_failure_hash
  rw [htest, harn]
  exact ⟨rfl, rfl⟩

theorem fingerprint_stability_witness :
    demoFailure.test_id = demoFailureLater.test_id ∧
    demoFailure.resource_arn = demoFailureLater.resource_arn ∧
    generate_failure_hash demoFailure = generate_failure_hash demoFailureLater :=
  ⟨rfl, rfl, (fingerprint_stability demoFailure demoFailureLater rfl rfl).1⟩

/-- C7: `is_already_processed` returns true exactly when a record exists for
the fingerprint whose status is `in_progress` or `completed`; in particular
a `failed` (or absent) record is reported as not processed, so it is
eligible again on the next cycle, while a `completed` one is not. -/
theorem is_already_processed_iff (st : RedisStore) (failure_hash : String) :
    is_already_processed st failure_hash = true ↔
      ∃ r : StoreRecord, storeGet st (make_key failure_hash) = some r ∧
        (r.status = .in_progress ∨ r.status = .completed) := by
  unfold is_already_processed
  cases h : storeGet st (make_key failure_hash) with
  | none => simp
  | some r => simp [h]

/-- A store holding one completed record, instantiating the processed
check at a concrete input. -/
def wStore : RedisStore :=
  storeSet ([] : List (String × StoreRecord)) (make_key "fp-1") { status := .completed }

theorem is_already_processed_iff_witness :
    is_already_processed wStore "fp-1" = true :=
  (is_already_processed_iff wStore "fp-1").mpr
    ⟨{ status := .completed }, rfl, Or.inr rfl⟩

/-- C9: with the cascade profile (growth 1.5, base 2, interval 10 s),
`get_failures_for_interval` returns `⌊2 · 1.5 ^ (elapsed / 10)⌋`; the
emissions for intervals 0 through 5 are 2, 3, 4, 6, 10, 15, and their sum
is 40. -/
theorem cascade_workload (elapsed : Nat) :
    get_failures_for_interval cascadeConfig elapsed =
      ⌊(2 : ℚ) * (3 / 2) ^ (elapsed / 10)⌋ ∧
    (List.range 6).map (fun i => get_failures_for_interval cascadeConfig (10 * i)) =
      [2, 3, 4, 6, 10, 15] ∧
    ((List.range 6).map (fun i => get_failures_for_interval cascadeConfig (10 * i))).sum
      = 40 := by
  have hval : ∀ i : Nat, get_failures_for_interval cascadeConfig (10 * i) =
      ⌊(2 : ℚ) * (3 / 2) ^ i⌋ := by
    intro i
    have hq : (0 : ℚ) ≤ 2 * (3 / 2) ^ i := by positivity
    have hdiv : 10 * i / 10 = i := by omega
    simp [get_failures_for_interval, cascadeConfig, pyInt, hdiv, hq]
  have h0 := hval 0
  have h1 := hval 1
  have h2 := hval 2
  have h3 := hval 3
  have h4 := hval 4
  have h5 := hval 5
  norm_num at h0 h1 h2 h3 h4 h5
  refine ⟨?_, ?_, ?_⟩
  · have hq : (0 : ℚ) ≤ 2 * (3 / 2) ^ (elapsed / 10) := by positivity
    simp [get_failures_for_interval, cascadeConfig, pyInt, hq]
  · simp [List.range_succ, h0, h1, h2, h3, h4, h5]
  · simp [List.range_succ, h0, h1, h2, h3, h4, h5]

theorem cascade_workload_witness :
    get_failures_for_interval cascadeConfig 30 = ⌊(2 : ℚ) * (3 / 2) ^ 3⌋ :=
  (cascade_workload 30).1

/-- A fingerprint value for the race scenario (the SHA-256 of a violation
signature is an opaque hex string; the race behavior does not depend on
its value). -/
def demoFingerprint : String :=
  "1f2d3c4b5a69788796a5b4c3d2e1f00112233445566778899aabbccddeeff00"

/-- C1: evaluation of the two-worker race at the interleaving where both
workers run their admission gate before either writes.  As written —
gating on the read-only `is_already_processed` — both workers are admitted
to the clone/generate/validate/PR stages; gating on the atomic
`check_and_claim`, as the store's own documentation and the spec mandate,
admits exactly one and the other observes a skipped result. -/
theorem admission_gate_race_evaluation :
    (runSchedule (stepActual demoFingerprint "s3-bpa-01" "arn:aws:s3:::demo") [0, 1, 0, 1]
      (initRace 2)).phases = [.pipeline, .pipeline] ∧
    admittedCount (runSchedule (stepActual demoFingerprint "s3-bpa-01" "arn:aws:s3:::demo")
      [0, 1, 0, 1] (initRace 2)) = 2 ∧
    (runSchedule (stepClaim demoFingerprint "s3-bpa-01" "arn:aws:s3:::demo") [0, 1, 0, 1]
      (initRace 2)).phases = [.pipeline, .skipped] ∧
    admittedCount (runSchedule (stepClaim demoFingerprint "s3-bpa-01" "arn:aws:s3:::demo")
      [0, 1, 0, 1] (initRace 2)) = 1 :=
  ⟨by decide, by decide, by decide, by decide⟩

/-- Attempt behavior of the "inference throttled twice then succeeds"
scenario: retryable `ThrottlingException` on 0-indexed attempts 0 and 1,
success on attempt 2. -/
def throttleTwice : Nat → AttemptOutcome := fun n =>
  if n < 2 then .raised ⟨.bedrock, true, "ThrottlingException"⟩
  else .ok "https://github.com/org/repo/pull/3"

/-- C3 counterexample: on the first-two-throttled scenario the orchestrator
sleeps 2 s then 4 s — `INITIAL_BACKOFF_SECONDS * 2 ** attempt` with the
0-indexed loop variable — not the claimed 4 s then 8 s; the third attempt
still produces the PR. -/
theorem retry_backoff_counterexample :
    (process_failure_with_retry throttleTwice).2 = [2, 4] ∧
    (process_failure_with_retry throttleTwice).2 ≠ [4, 8] ∧
    (process_failure_with_retry throttleTwice).1 =
      Except.ok "https://github.com/org/repo/pull/3" :=
  ⟨rfl, by decide, rfl⟩

/-- Each retry consumes one attempt index, and only indices below
`MAX_RETRIES - 1` retry, so at most `MAX_RETRIES - 1 - attempt` sleeps
remain from a given attempt index. -/
theorem retryFrom_sleeps_length (attempts : Nat → AttemptOutcome) :
    ∀ fuel attempt : Nat,
      (retryFrom attempts fuel attempt).2.length ≤ MAX_RETRIES - 1 - attempt := by
  intro fuel
  induction fuel with
  | zero => intro a; simp [retryFrom]
  | succ n ih =>
    intro a
    unfold retryFrom
    cases h : attempts a with
    | ok pr_url => simp
    | raised e =>
      by_cases hc : (isRetryCatchClass e.cls && e.retryable && decide (a < MAX_RETRIES - 1)) = true
      · simp only [hc, if_true, List.length_cons]
        have ha : a < MAX_RETRIES - 1 := by
          simp only [Bool.and_eq_true, decide_eq_true_eq] at hc
          exact hc.2
        have hrec := ih (a + 1)
        omega
      · simp only [Bool.not_eq_true] at hc
        simp [hc]

/-- C3 (amended): at most `MAX_RETRIES = 3` attempts are made; the sleep
after the 0-indexed failed attempt `a` is `min(2 · 2^a, 60)` seconds, so a
violation whose first two attempts fail retryably sleeps 2 s then 4 s
(not 4 s and 8 s), and the third attempt can succeed and produce a PR. -/
theorem retry_backoff_amended (attempts : Nat → AttemptOutcome) (e1 e2 : PyError)
    (url : String)
    (h0 : attempts 0 = .raised e1) (h1 : attempts 1 = .raised e2)
    (h2 : attempts 2 = .ok url)
    (hc1 : isRetryCatchClass e1.cls = true) (hr1 : e1.retryable = true)
    (hc2 : isRetryCatchClass e2.cls = true) (hr2 : e2.retryable = true) :
    process_failure_with_retry attempts = (Except.ok url, [2, 4]) ∧
    ∀ g : Nat → AttemptOutcome,
      (process_failure_with_retry g).2.length ≤ MAX_RETRIES - 1 := by
  constructor
  · have s2 : retryFrom attempts 1 2 = (Except.ok url, []) := by
      unfold retryFrom
      rw [h2]
    have s1 : retryFrom attempts 2 1 = (Except.ok url, [4]) := by
      unfold retryFrom
      rw [h1, s2]
      simp [hc2, hr2, MAX_RETRIES, INITIAL_BACKOFF_SECONDS, MAX_BACKOFF_SECONDS]
    have s0 : retryFrom attempts 3 0 = (Except.ok url, [2, 4]) := by
      unfold retryFrom
      rw [h0, s1]
      simp [hc1, hr1, MAX_RETRIES, INITIAL_BACKOFF_SECONDS, MAX_BACKOFF_SECONDS]
    exact s0
  · intro g
    simpa using retryFrom_sleeps_length g MAX_RETRIES 0

theorem retry_backoff_amended_witness :
    throttleTwice 0 = AttemptOutcome.raised ⟨.bedrock, true, "ThrottlingException"⟩ ∧
    throttleTwice 1 = AttemptOutcome.raised ⟨.bedrock, true, "ThrottlingException"⟩ ∧
    throttleTwice 2 = AttemptOutcome.ok "https://github.com/org/repo/pull/3" ∧
    process_failure_with_retry throttleTwice =
      (Except.ok "https://github.com/org/repo/pull/3", [2, 4]) :=
  ⟨rfl, rfl, rfl,
    (retry_backoff_amended throttleTwice
      ⟨.bedrock, true, "ThrottlingException"⟩ ⟨.bedrock, true, "ThrottlingException"⟩
      "https://github.com/org/repo/pull/3" rfl rfl rfl rfl rfl rfl rfl).1⟩

/-- Two-pattern mapping with no `default`, in the insertion order that
separates first-match from longest-match. -/
def demoMapping : List (String × String) :=
  [("arn:aws", "myorg/terraform-general"), ("arn:aws:s3", "myorg/terraform-s3")]

/-- C4 counterexample: with patterns "arn:aws" then "arn:aws:s3" configured
in that insertion order and no exact match, the code returns the repo of
the FIRST key that is a prefix of the ARN, while the spec's longest-prefix
lookup returns the other repo. -/
theorem repo_lookup_counterexample :
    get_repo_for_resource demoMapping "arn:aws:s3:::prod-bucket"
      = some "myorg/terraform-general" ∧
    get_repo_for_resource_spec demoMapping "arn:aws:s3:::prod-bucket"
      = some "myorg/terraform-s3" ∧
    get_repo_for_resource demoMapping "arn:aws:s3:::prod-bucket" ≠
      get_repo_for_resource_spec demoMapping "arn:aws:s3:::prod-bucket" :=
  ⟨by decide, by decide, by decide⟩

/-- `List.find?` returns the marked element when everything before it fails
the predicate. -/
theorem find?_append_first {α : Type} (p : α → Bool) (pre : List α) (x : α) (post : List α)
    (hx : p x = true) (hpre : ∀ y ∈ pre, p y = false) :
    List.find? p (pre ++ x :: post) = some x := by
  induction pre with
  | nil => simp [List.find?_cons_of_pos, hx]
  | cons y ys ih =>
    have hy := hpre y (List.mem_cons_self y ys)
    rw [List.cons_append, List.find?_cons_of_neg _ (by simp [hy])]
    exact ih (fun z hz => hpre z (List.mem_cons_of_mem y hz))

/-- C4 (amended): `get_repo_for_resource` returns the exact match when one
exists; otherwise the value of the FIRST key in dict insertion order that
is not `"default"` and is a prefix of the ARN (not the longest such key);
otherwise the non-empty `default`; otherwise nothing. -/
theorem repo_lookup_amended (mapping : List (String × String)) (resource_arn : String) :
    (∀ repo, dictGet mapping resource_arn = some repo →
      get_repo_for_resource mapping resource_arn = some repo) ∧
    (dictGet mapping resource_arn = none →
      ∀ pre k v post, mapping = pre ++ (k, v) :: post →
        (k != "default" && pyStartsWith resource_arn k) = true →
        (∀ kv ∈ pre, (kv.1 != "default" && pyStartsWith resource_arn kv.1) = false) →
        get_repo_for_resource mapping resource_arn = some v) ∧
    (dictGet mapping resource_arn = none →
      (∀ kv ∈ mapping, (kv.1 != "default" && pyStartsWith resource_arn kv.1) = false) →
      get_repo_for_resource mapping resource_arn =
        (dictGet mapping "default").bind (fun d => if d = "" then none else some d)) := by
  refine ⟨?_, ?_, ?_⟩
  · intro repo h
    unfold get_repo_for_resource
    rw [h]
  · intro hnone pre k v post hm hk hpre
    unfold get_repo_for_resource
    rw [hnone, hm, find?_append_first _ pre (k, v) post hk hpre]
  · intro hnone hall
    unfold get_repo_for_resource
    rw [hnone, List.find?_eq_none.mpr (fun kv hkv => by simp [hall kv hkv])]
    cases hd : dictGet mapping "default" with
    | none => simp
    | some d => simp

/-- A mapping whose `default` precedes the matching pattern, exercising the
first-match clause of the amended lookup with a non-trivial preceding
segment. -/
def wMapping : List (String × String) :=
  [("default", "myorg/fallback"), ("arn:aws:s3", "myorg/terraform-s3"),
   ("arn:aws", "myorg/terraform-general")]

theorem repo_lookup_amended_witness :
    dictGet wMapping "arn:aws:s3:::prod" = none ∧
    get_repo_for_resource wMapping "arn:aws:s3:::prod" = some "myorg/terraform-s3" := by
  refine ⟨by decide, ?_⟩
  exact (repo_lookup_amended wMapping "arn:aws:s3:::prod").2.1 (by decide)
    [("default", "myorg/fallback")] "arn:aws:s3" "myorg/terraform-s3"
    [("arn:aws", "myorg/terraform-general")] rfl (by decide) (by decide)

/-- Environment in which the `is_already_processed` gate itself raises
`StateStoreError` (dedup store unreachable). -/
def redisDownEnv : OrchestratorEnv :=
  { isProcessedOutcome :=
      Except.error ⟨"is_already_processed", "Failed to check processing status: connection refused"⟩
    markInProgressOutcome := Except.ok ()
    pipelineOutcome := Except.ok "https://github.com/org/repo/pull/9"
    markProcessedOutcome := Except.ok ()
    markFailedOutcome := Except.ok () }

/-- C5 counterexample: a `StateStoreError` raised by the unwrapped
`is_already_processed` gate propagates out of `process_failure` — no
`ProcessingResult` is returned for this violation. -/
theorem state_store_error_counterexample :
    process_failure demoFailure redisDownEnv =
      Except.error ⟨"is_already_processed", "Failed to check processing status: connection refused"⟩ ∧
    (process_failure demoFailure redisDownEnv).isOk = false :=
  ⟨rfl, rfl⟩

/-- C5 (amended): failures of `mark_in_progress`, `mark_processed` and
`mark_failed` (and of the pipeline) are caught — whenever the initial
`is_already_processed` check returns rather than raises, `process_failure`
returns a `ProcessingResult`; only an exception from `is_already_processed`
itself propagates. -/
theorem state_store_error_amended (failure : Failure) (env : OrchestratorEnv) (b : Bool)
    (h : env.isProcessedOutcome = Except.ok b) :
    (process_failure failure env).isOk = true := by
  unfold process_failure
  rw [h]
  cases b with
  | true => rfl
  | false =>
    cases hp : env.pipelineOutcome with
    | ok pr_url =>
      cases hm : env.markProcessedOutcome with
      | ok u => rfl
      | error e => rfl
    | error e => rfl

/-- Environment where every fallible collaborator other than the gate
fails: the in-progress write, the pipeline and the failed-status write. -/
def degradedEnv : OrchestratorEnv :=
  { isProcessedOutcome := Except.ok false
    markInProgressOutcome := Except.error ⟨"mark_in_progress", "redis timeout"⟩
    pipelineOutcome := Except.error ⟨.bedrock, false, "ValidationException"⟩
    markProcessedOutcome := Except.ok ()
    markFailedOutcome := Except.error ⟨"mark_failed", "redis timeout"⟩ }

theorem state_store_error_amended_witness :
    degradedEnv.isProcessedOutcome = Except.ok false ∧
    (process_failure demoFailure degradedEnv).isOk = true :=
  ⟨rfl, state_store_error_amended demoFailure degradedEnv false rfl⟩

/-- Stand-in for the external `hashlib.md5` hex digest (the claims at issue
do not depend on its value). -/
def hexStandIn : String → String := fun _ => "9e107d9d98f00b20"

/-- The duplicate-branch race: the branch does not exist at the pre-check
but another worker creates it before `create_git_ref` runs. -/
def raceWorld : GitHubRepoState :=
  { branchesAtCheck := [], raceBranchAppears := true }

/-- C6 counterexample: in the race window `create_remediation_pr` raises a
non-retryable 422 `GitHubError` ("Reference already exists") instead of
returning the empty-string sentinel. -/
theorem duplicate_branch_counterexample :
    (create_remediation_pr hexStandIn raceWorld demoFailure
        "https://github.com/org/repo/pull/7").result =
      Except.error ⟨"GitHub API error during create_pr: Reference already exists",
        some 422, false⟩ ∧
    (create_remediation_pr hexStandIn raceWorld demoFailure
      "https://github.com/org/repo/pull/7").result.isOk = false :=
  ⟨rfl, rfl⟩

/-- C6 (amended): the empty-string sentinel is returned exactly when the
branch exists at the `get_branch` pre-check; a branch created by another
worker between the pre-check and `create_git_ref` surfaces instead as a
non-retryable 422 `GitHubError`.  In both cases no second branch and no
second PR are created, and the orchestrator treats the attempt as a
permanent (non-retryable) failure. -/
theorem duplicate_branch_amended (md5hex : String → String) (w : GitHubRepoState)
    (failure : Failure) (url : String)
    (h : w.branchesAtCheck.contains (generate_branch_name md5hex failure) = true ∨
      w.raceBranchAppears = true) :
    (create_remediation_pr md5hex w failure url).branchesCreated = 0 ∧
    (create_remediation_pr md5hex w failure url).prsCreated = 0 ∧
    (∃ e : PyError, prStepOfOutcome (create_remediation_pr md5hex w failure url) =
      Except.error e ∧ e.retryable = false) ∧
    ((create_remediation_pr md5hex w failure url).result = Except.ok "" ∨
      ∃ ge : GHError, (create_remediation_pr md5hex w failure url).result = Except.error ge ∧
        ge.retryable = false ∧ ge.status_code = some 422) := by
  by_cases hb : w.branchesAtCheck.contains (generate_branch_name md5hex failure) = true
  · have hout : create_remediation_pr md5hex w failure url =
        { result := Except.ok "", branchesCreated := 0, prsCreated := 0 } := by
      simp only [create_remediation_pr]
      rw [if_pos hb]
    rw [hout]
    exact ⟨rfl, rfl,
      ⟨⟨.github, false, "Failed to create PR (duplicate branch)"⟩, rfl, rfl⟩, Or.inl rfl⟩
  · rcases h with h | h
    · exact absurd h hb
    · have hout : create_remediation_pr md5hex w failure url =
          { result := Except.error
              ⟨"GitHub API error during create_pr: Reference already exists",
                some 422, githubRetryable (some 422)⟩,
            branchesCreated := 0, prsCreated := 0 } := by
        simp only [create_remediation_pr]
        rw [if_neg hb, if_pos h]
      rw [hout]
      exact ⟨rfl, rfl,
        ⟨⟨.github, githubRetryable (some 422),
          "GitHub API error during create_pr: Reference already exists"⟩, rfl, by decide⟩,
        Or.inr ⟨⟨"GitHub API error during create_pr: Reference already exists",
          some 422, githubRetryable (some 422)⟩, rfl, by decide, rfl⟩⟩

theorem duplicate_branch_amended_witness :
    raceWorld.raceBranchAppears = true ∧
    (create_remediation_pr hexStandIn raceWorld demoFailureLater
      "https://github.com/org/repo/pull/8").branchesCreated = 0 ∧
    (create_remediation_pr hexStandIn raceWorld demoFailureLater
      "https://github.com/org/repo/pull/8").prsCreated = 0 :=
  ⟨rfl,
    (duplicate_branch_amended hexStandIn raceWorld demoFailureLater
      "https://github.com/org/repo/pull/8" (Or.inr rfl)).1,
    (duplicate_branch_amended hexStandIn raceWorld demoFailureLater
      "https://github.com/org/repo/pull/8" (Or.inr rfl)).2.1⟩

/-- C8: `acquire(timeout=0)` behaves exactly as `try_acquire()`: same
result, same resulting bucket state, and no sleeping — when a token is
available after the lazy refill both take it and return true, otherwise
both return false immediately. -/
theorem acquire_zero_eq_try_acquire (s : LimiterState) (now : ℚ) (fuel : Nat)
    (hrate : 0 < s.rate) :
    (acquire s 0 now (fuel + 1)).1 = (try_acquire s now).1 ∧
    (acquire s 0 now (fuel + 1)).2.1 = (try_acquire s now).2 ∧
    (acquire s 0 now (fuel + 1)).2.2 = [] := by
  unfold acquire acquireLoop try_acquire
  by_cases h : 1 ≤ (refill s now).tokens
  · simp [h]
  · have hrr : (refill s now).rate = s.rate := rfl
    have hwpos : 0 < (1 - (refill s now).tokens) / (refill s now).rate := by
      apply div_pos
      · push_neg at h
        linarith
      · rw [hrr]
        exact hrate
    have hc1 : now + 0 < now + (1 - (refill s now).tokens) / (refill s now).rate := by
      linarith
    have hc2 : now < now + (1 - (refill s now).tokens) / (refill s now).rate := by
      linarith
    simp [h, hc1, hc2]

theorem acquire_zero_eq_try_acquire_witness :
    (0 : ℚ) < (initLimiter 50 10 0).rate ∧
    (acquire (initLimiter 50 10 0) 0 0 4).1 = (try_acquire (initLimiter 50 10 0) 0).1 ∧
    (acquire (initLimiter 50 10 0) 0 0 4).2.1 = (try_acquire (initLimiter 50 10 0) 0).2 ∧
    (acquire (initLimiter 50 10 0) 0 0 4).2.2 = [] := by
  have hr : (0 : ℚ) < (initLimiter 50 10 0).rate := by norm_num [initLimiter]
  exact ⟨hr, acquire_zero_eq_try_acquire (initLimiter 50 10 0) 0 3 hr⟩

/-- The lazy refill keeps the token count in `[0, capacity]` and does not
touch rate or capacity. -/
theorem refill_inv {s : LimiterState} {now : ℚ} (hs : limiterInv s)
    (hr : 0 ≤ s.rate) (ht : s.lastUpdate ≤ now) : limiterInv (refill s now) := by
  obtain ⟨h0, hcap⟩ := hs
  have hmul : 0 ≤ (now - s.lastUpdate) * s.rate := mul_nonneg (by linarith) hr
  constructor
  · show 0 ≤ min s.capacity (s.tokens + (now - s.lastUpdate) * s.rate)
    exact le_min (by linarith) (by linarith)
  · show min s.capacity (s.tokens + (now - s.lastUpdate) * s.rate) ≤ s.capacity
    exact min_le_left _ _

/-- `try_acquire` preserves the bucket invariant: the refill clamps to
capacity, and a token is subtracted only when at least one is present. -/
theorem try_acquire_inv {s : LimiterState} {now : ℚ} (hs : limiterInv s)
    (hr : 0 ≤ s.rate) (ht : s.lastUpdate ≤ now) : limiterInv (try_acquire s now).2 := by
  obtain ⟨h0, hcap⟩ := refill_inv hs hr ht
  unfold try_acquire
  by_cases h : 1 ≤ (refill s now).tokens
  · rw [if_pos h]
    constructor
    · show (0 : ℚ) ≤ (refill s now).tokens - 1
      linarith
    · show (refill s now).tokens - 1 ≤ (refill s now).capacity
      linarith
  · rw [if_neg h]
    exact ⟨h0, hcap⟩

/-- Every iteration of `acquire`'s loop preserves the bucket invariant. -/
theorem acquireLoop_inv (deadline : ℚ) :
    ∀ (fuel : Nat) (s : LimiterState) (now : ℚ), limiterInv s → 0 < s.rate →
      s.lastUpdate ≤ now → limiterInv (acquireLoop deadline fuel s now).2.1 := by
  intro fuel
  induction fuel with
  | zero =>
    intro s now hs _ _
    exact hs
  | succ n ih =>
    intro s now hs hr ht
    have h' := refill_inv hs (le_of_lt hr) ht
    obtain ⟨h0, hcap⟩ := h'
    unfold acquireLoop
    by_cases h : 1 ≤ (refill s now).tokens
    · rw [if_pos h]
      constructor
      · show (0 : ℚ) ≤ (refill s now).tokens - 1
        linarith
      · show (refill s now).tokens - 1 ≤ (refill s now).capacity
        linarith
    · rw [if_neg h]
      by_cases h2 : deadline < now + (1 - (refill s now).tokens) / (refill s now).rate
      · rw [if_pos h2]
        exact ⟨h0, hcap⟩
      · rw [if_neg h2]
        have hrr : (refill s now).rate = s.rate := rfl
        have hwpos : 0 < (1 - (refill s now).tokens) / (refill s now).rate := by
          apply div_pos
          · push_neg at h
            linarith
          · rw [hrr]
            exact hr
        have hsleep : 0 < min ((1 - (refill s now).tokens) / (refill s now).rate) (1 / 10) := by
          apply lt_min hwpos
          norm_num
        exact ih (refill s now)
          (now + min ((1 - (refill s now).tokens) / (refill s now).rate) (1 / 10))
          ⟨h0, hcap⟩ (by rw [hrr]; exact hr)
          (by show now ≤ now + _; linarith)

/-- C10: for a limiter built from a (nonnegative) burst size `B`, the token
count lies in `[0, capacity]` with `capacity = B` at construction, and the
invariant is preserved by `refill`, `try_acquire`, `get_available_tokens`,
`get_wait_time` and `acquire` (for any timeout and any number of loop
iterations), under the monotonic clock (`lastUpdate ≤ now`). -/
theorem rate_limiter_invariant :
    (∀ (rpm burst : ℤ) (now : ℚ), 0 ≤ burst →
      limiterInv (initLimiter rpm burst now) ∧ (initLimiter rpm burst now).capacity = burst) ∧
    (∀ (s : LimiterState) (now : ℚ), limiterInv s → 0 ≤ s.rate → s.lastUpdate ≤ now →
      limiterInv (refill s now) ∧ limiterInv (try_acquire s now).2 ∧
      limiterInv (get_available_tokens s now).2 ∧ limiterInv (get_wait_time s now).2) ∧
    (∀ (timeout : ℚ) (fuel : Nat) (s : LimiterState) (now : ℚ),
      limiterInv s → 0 < s.rate → s.lastUpdate ≤ now →
      limiterInv (acquire s timeout now fuel).2.1) := by
  refine ⟨?_, ?_, ?_⟩
  · intro rpm burst now hb
    refine ⟨⟨?_, ?_⟩, rfl⟩
    · show (0 : ℚ) ≤ (burst : ℚ)
      exact_mod_cast hb
    · show (burst : ℚ) ≤ (burst : ℚ)
      exact le_refl _
  · intro s now hs hr ht
    refine ⟨refill_inv hs hr ht, try_acquire_inv hs hr ht, refill_inv hs hr ht, ?_⟩
    unfold get_wait_time
    by_cases h : 1 ≤ (refill s now).tokens
    · rw [if_pos h]
      exact refill_inv hs hr ht
    · rw [if_neg h]
      exact refill_inv hs hr ht
  · intro timeout fuel s now hs hr ht
    exact acquireLoop_inv (now + timeout) fuel s now hs hr ht

theorem rate_limiter_invariant_witness :
    limiterInv (acquire (initLimiter 50 10 0) 0 0 5).2.1 ∧
    (initLimiter 50 10 0).capacity = 10 := by
  have h1 := rate_limiter_invariant.1 50 10 0 (by norm_num)
  refine ⟨?_, h1.2⟩
  exact rate_limiter_invariant.2.2 0 5 (initLimiter 50 10 0) 0 h1.1
    (by norm_num [initLimiter]) (le_refl 0)

end TerraFix
